import Mathlib

/-!
Verification of the Karachi flood early-warning system (MLFloodEarlyWarningSystem).

The repository ships the relational schema (`src/backend/schema.sql`), the
dashboard frontend (`src/frontend/...`), and package documentation; the backend
prediction engine itself (feature deriver, model trainer, predictor, demo
endpoint) is not part of the source tree, so those components are modelled from
the specification where a claim depends on them.  Components that are in the
source (the unique indexes of the schema, the dashboard's status handling,
gauge clamping and confidence rendering) are embedded directly.
-/

namespace FloodEWS

/-! Keyed stores.  `schema.sql` declares `weather_observations` with
`CREATE UNIQUE INDEX idx_weather_obs_observed_at ON weather_observations (observed_at)`
and `predictions` with
`CREATE UNIQUE INDEX idx_predictions_data_hour ON predictions (data_hour_utc)`.
A table is embedded as an association list from an hour key (ℤ, hours since an
epoch; timestamps are truncated to the hour) to a row.  The unique index is the
invariant that each key occurs at most once. -/

/-- A table keyed by hour: list of (hour, row) pairs in insertion order. -/
abbrev Table (α : Type) : Type := List (ℤ × α)

/-- The row stored under key `t`, if any (first match). -/
def lookupK {α : Type} : Table α → ℤ → Option α
  | [], _ => none
  | p :: rest, t => if p.1 = t then some p.2 else lookupK rest t

/-- Modelled from the spec: the backend's upsert-on-conflict write path
(`INSERT ... ON CONFLICT (key) DO UPDATE`) is not in the source tree; per the
spec's "upsert semantics on conflict", a write replaces the row whose key
matches, and appends a fresh row when no key matches. -/
def upsertK {α : Type} : Table α → ℤ → α → Table α
  | [], t, v => [(t, v)]
  | p :: rest, t, v => if p.1 = t then (t, v) :: rest else p :: upsertK rest t v

/-- Number of rows stored under key `t`. -/
def countK {α : Type} : Table α → ℤ → ℕ
  | [], _ => 0
  | p :: rest, t => (if p.1 = t then 1 else 0) + countK rest t

/-- The unique-index invariant: at most one row per key. -/
def uniqueKeyed {α : Type} (S : Table α) : Prop := ∀ t : ℤ, countK S t ≤ 1

/-! Observation rows.  From `schema.sql`, `weather_observations`: the raw
measurement columns `surface_pressure`, `precipitation`, `humidity`,
`temperature` are nullable `DOUBLE PRECISION`, and `flood_label` is a nullable
`INTEGER` (0=NORMAL, 1=FLOOD WATCH, 2=EMERGENCY).  Reals are embedded as ℚ. -/

/-- One row of `weather_observations` (raw measurement columns). -/
structure Obs where
  surface_pressure : Option ℚ
  precipitation : Option ℚ
  humidity : Option ℚ
  temperature : Option ℚ
  flood_label : Option ℕ
deriving DecidableEq, Repr

/-- The observation store: the `weather_observations` table keyed by
`observed_at` truncated to the hour. -/
abbrev ObsStore : Type := Table Obs

/-- Pressure recorded at hour `t`, when the row and the column are present. -/
def pressureAt (S : ObsStore) (t : ℤ) : Option ℚ :=
  (lookupK S t).bind Obs.surface_pressure

/-- Hours of the trailing window of width `w` anchored at `t`:
`t, t-1, ..., t-(w-1)`. -/
def windowHours (t : ℤ) (w : ℕ) : List ℤ :=
  (List.range w).map (fun i : ℕ => t - (i : ℤ))

/-- The non-null values of column `f` over the trailing window of width `w`
anchored at `t`: hours with a missing row or a missing raw value are excluded
from the aggregate, not treated as zero. -/
def windowVals (f : Obs → Option ℚ) (S : ObsStore) (t : ℤ) (w : ℕ) : List ℚ :=
  (windowHours t w).filterMap (fun h => (lookupK S h).bind f)

/-- Modelled from the spec: the Feature Deriver's rolling sum (the backend
computes the derived-feature columns of `schema.sql` via SQL window functions
that are not in the source tree).  Per the spec a rolling aggregate uses only
observations at hours ≤ t, skips missing values, and is null — never zero —
when the window holds no value at all. -/
def rollingSum (f : Obs → Option ℚ) (S : ObsStore) (t : ℤ) (w : ℕ) : Option ℚ :=
  match windowVals f S t w with
  | [] => none
  | vs => some vs.sum

/-- Modelled from the spec: the Feature Deriver's rolling mean, same
conventions as `rollingSum`. -/
def rollingMean (f : Obs → Option ℚ) (S : ObsStore) (t : ℤ) (w : ℕ) : Option ℚ :=
  match windowVals f S t w with
  | [] => none
  | vs => some (vs.sum / (vs.length : ℚ))

/-- Modelled from the spec: the derived column `pressure_trend_3h` of
`schema.sql` — pressure(t) − pressure(t − 3h) when both samples exist, else
null. -/
def pressure_trend_3h (S : ObsStore) (t : ℤ) : Option ℚ :=
  match pressureAt S t, pressureAt S (t - 3) with
  | some p, some q => some (p - q)
  | _, _ => none

/-- Modelled from the spec: the derived column `precip_rolling_6h`. -/
def precip_rolling_6h (S : ObsStore) (t : ℤ) : Option ℚ :=
  rollingSum Obs.precipitation S t 6

/-- Modelled from the spec: the derived column `precip_rolling_24h`. -/
def precip_rolling_24h (S : ObsStore) (t : ℤ) : Option ℚ :=
  rollingSum Obs.precipitation S t 24

/-- Modelled from the spec: the derived column `pressure_rolling_12h`. -/
def pressure_rolling_12h (S : ObsStore) (t : ℤ) : Option ℚ :=
  rollingMean Obs.surface_pressure S t 12

/-- Modelled from the spec: the derived column `humidity_rolling_6h`. -/
def humidity_rolling_6h (S : ObsStore) (t : ℤ) : Option ℚ :=
  rollingMean Obs.humidity S t 6

/-! Concrete stores, used by the witnesses.  `exampleStore` is the spec's
end-to-end example: observations at hours 00:00–03:00 with pressures
[1008, 1007, 1005, 1002] and precipitation [0, 0, 0.1, 0.3]. -/

/-- An observation row with the three raw values present. -/
def mkObs (pr pc hu : ℚ) : Obs :=
  { surface_pressure := some pr, precipitation := some pc, humidity := some hu,
    temperature := none, flood_label := none }

/-- The spec's end-to-end example slice of the observation store. -/
def exampleStore : ObsStore :=
  [(0, mkObs 1008 0 70), (1, mkObs 1007 0 72),
   (2, mkObs 1005 (1/10) 75), (3, mkObs 1002 (3/10) 80)]

/-- A later observation, inserted after the features at hour 3 were computed. -/
def futureObs : Obs := mkObs 998 (7/10) 90

/-! Prediction rows.  From `schema.sql` `predictions` and the frontend
`FloodPrediction` interface (`src/frontend/lib/types.ts`): predicted class
(`prediction`, an integer), human-readable `status` and `color` strings, and a
numeric `confidence`. -/

/-- One served prediction, as in the `FloodPrediction` interface and the
`predictions` table. -/
structure FloodPrediction where
  prediction : ℕ
  status : String
  color : String
  confidence : ℚ
deriving DecidableEq, Repr

/-- The `predictions` table keyed by `data_hour_utc` truncated to the hour. -/
abbrev PredStore : Type := Table FloodPrediction

/-- A prediction row used by the C6 witness. -/
def watchPredRow : FloodPrediction :=
  { prediction := 1, status := "FLOOD WATCH", color := "YELLOW", confidence := 82 }

/-- A second prediction row for the same hour, used by the C6 witness. -/
def normalPredRow : FloodPrediction :=
  { prediction := 0, status := "NORMAL", color := "GREEN", confidence := 91 }

/-! The Model Trainer and Training Log.  From `schema.sql`, a
`model_training_log` row carries `trained_at`, `training_samples`, `accuracy`
and a `trigger` (`scheduled`, `startup`, `manual`).  The trainer itself is not
in the source tree and is modelled from the spec. -/

/-- One labelled training sample: a feature vector with its ground-truth flood
label. -/
structure TrainSample where
  pressure : ℚ
  precipitation : ℚ
  humidity : ℚ
  pressure_trend : ℚ
  label : ℕ
deriving DecidableEq, Repr

/-- A Model Artifact: the served bundle's metadata (`trained_at`,
`training_samples` as in the schema; the fitted ensemble itself carries no
observable state for the lifecycle claims). -/
structure Artifact where
  trained_at : ℤ
  training_samples : ℕ
deriving DecidableEq, Repr

/-- One row of `model_training_log`, with the spec's failed-run marker. -/
structure LogEntry where
  trained_at : ℤ
  training_samples : ℕ
  trigger : String
  succeeded : Bool
deriving DecidableEq, Repr

/-- The trainer-visible state: the currently-served artifact (none before the
first successful run) and the append-only training log. -/
structure TrainerState where
  served : Option Artifact
  log : List LogEntry
deriving DecidableEq, Repr

/-- True when class `c` is entirely absent from the training slice. -/
def classAbsent (slice : List TrainSample) (c : ℕ) : Bool :=
  slice.all (fun s => s.label ≠ c)

/-- Modelled from the spec: the Model Trainer's failure condition — fewer than
the minimum viable sample count, or one of the three classes entirely absent
from the training slice.  The trainer is not in the source tree. -/
def trainFails (minSamples : ℕ) (slice : List TrainSample) : Bool :=
  slice.length < minSamples ||
    (classAbsent slice 0 || (classAbsent slice 1 || classAbsent slice 2))

/-- The artifact a successful run over `slice` publishes. -/
def mkArtifact (now : ℤ) (slice : List TrainSample) : Artifact :=
  { trained_at := now, training_samples := slice.length }

/-- Modelled from the spec: one run of the Model Trainer over a training
slice (the trainer is not in the source tree).  A failed run appends a failed
log row and leaves the served artifact untouched; a successful run appends one
log row and atomically publishes the new artifact as served. -/
def runTraining (minSamples : ℕ) (now : ℤ) (trig : String)
    (slice : List TrainSample) (st : TrainerState) : TrainerState :=
  if trainFails minSamples slice then
    { served := st.served,
      log := st.log ++ [⟨now, slice.length, trig, false⟩] }
  else
    { served := some (mkArtifact now slice),
      log := st.log ++ [⟨now, slice.length, trig, true⟩] }

/-- A training slice covering all three classes, used by the C2 witness. -/
def fullSlice : List TrainSample :=
  [⟨1008, 0, 70, 0, 0⟩, ⟨1004, 2, 78, -13/10, 1⟩, ⟨998, 9, 92, -4, 2⟩]

/-- A training slice holding only class-0 examples, used by the C2 witness. -/
def onlyNormalSlice : List TrainSample :=
  [⟨1008, 0, 70, 0, 0⟩, ⟨1009, 0, 68, 1/2, 0⟩, ⟨1010, 0, 66, 1, 0⟩]

/-- A trainer state with a served artifact and one prior log row. -/
def exampleTrainerState : TrainerState :=
  { served := some ⟨100, 3⟩, log := [⟨100, 3, "startup", true⟩] }

/-! The Predictor's class and status/color mapping.  The classifier itself is
not in the source tree; `schema.sql` documents `prediction` as 0, 1 or 2,
`status` as NORMAL / FLOOD WATCH / EMERGENCY WARNING and `color` as GREEN /
YELLOW / RED. -/

/-- Modelled from the spec: the served classifier's argmax over the three
class probabilities (first index attaining the maximum); the classifier is not
in the source tree. -/
def argmax3 (p0 p1 p2 : ℚ) : Fin 3 :=
  if p1 ≤ p0 ∧ p2 ≤ p0 then 0 else if p2 ≤ p1 then 1 else 2

/-- Modelled from the spec: the Predictor's status/color mapping, a total
function of the predicted class — 0→NORMAL/GREEN, 1→FLOOD WATCH/YELLOW,
2→EMERGENCY WARNING/RED; the Predictor is not in the source tree. -/
def statusOfClass (c : Fin 3) : String × String :=
  if c = 0 then ("NORMAL", "GREEN")
  else if c = 1 then ("FLOOD WATCH", "YELLOW")
  else ("EMERGENCY WARNING", "RED")

/-- The probability the classifier assigned to class `c`. -/
def classProb (p0 p1 p2 : ℚ) (c : Fin 3) : ℚ :=
  if c = 0 then p0 else if c = 1 then p1 else p2

/-- Clip to the unit interval. -/
def clip01 (q : ℚ) : ℚ := min 1 (max 0 q)

/-- Modelled from the spec: the Predictor's output for class probabilities
(p0, p1, p2) — predicted class is the argmax, status and color come from
`statusOfClass`, and the confidence field is the predicted class's clipped
probability on the percentage scale the dashboard consumes (`HeroAlert`
passes `prediction.confidence` to `ConfidenceRing` as a 0–100 `percentage`
with no conversion); the Predictor is not in the source tree. -/
def mkPrediction (p0 p1 p2 : ℚ) : FloodPrediction :=
  { prediction := (argmax3 p0 p1 p2 : ℕ),
    status := (statusOfClass (argmax3 p0 p1 p2)).1,
    color := (statusOfClass (argmax3 p0 p1 p2)).2,
    confidence := 100 * clip01 (classProb p0 p1 p2 (argmax3 p0 p1 p2)) }

/-! Confidence rendering.  From `src/frontend/components/dashboard/WeatherCharts.tsx`:
`ConfidenceRing` takes a `percentage` prop, fills the ring by
`strokeDashoffset = circumference - (percentage / 100) * circumference` and
displays `percentage.toFixed(0)` with a percent sign; `HeroAlert` (line 673)
renders `<ConfidenceRing percentage={prediction.confidence} />`. -/

/-- From `ConfidenceRing`: the stroke dash offset for a ring of the given
circumference at the given percentage. -/
def ringOffset (circumference pct : ℚ) : ℚ :=
  circumference - pct / 100 * circumference

/-- From `HeroAlert` line 673: the `percentage` prop handed to
`ConfidenceRing` is the prediction's `confidence` field itself — no unit
conversion is applied. -/
def heroRingPercentage (p : FloodPrediction) : ℚ := p.confidence

/-! Demo scenarios.  `src/frontend/hooks/useDemoMode.ts` fixes the scenario
names `["normal", "watch", "emergency"]`; `useFloodData`
(`src/unnamed/part_000`) fetches `/api/demo/scenario/{name}` when a scenario
is active and `/api/predict` otherwise.  The demo endpoint itself is not in
the source tree. -/

/-- The fixed scenario enumeration of `useDemoMode.ts`. -/
def SCENARIOS : List String := ["normal", "watch", "emergency"]

/-- From `useFloodData`: the URL fetched — the demo endpoint when a scenario
is active (a non-empty scenario string), the live prediction endpoint
otherwise. -/
def floodDataUrl (demoScenario : Option String) : String :=
  match demoScenario with
  | none => "/api/predict"
  | some sc => if sc = "" then "/api/predict" else "/api/demo/scenario/" ++ sc

/-- A demo response: the scenario name served plus its synthetic prediction. -/
structure DemoPayload where
  scenario : String
  prediction : FloodPrediction
deriving DecidableEq, Repr

/-- Modelled from the spec: the synthetic payloads of the demo endpoint
`GET /demo/scenario/{name}` (not in the source tree) — a fixed response per
scenario name, class 0 for `normal`, 1 for `watch`, 2 for `emergency`. -/
def demoPayload (name : String) : Option DemoPayload :=
  if name = "normal" then
    some ⟨"normal", ⟨0, "NORMAL", "GREEN", 91⟩⟩
  else if name = "watch" then
    some ⟨"watch", ⟨1, "FLOOD WATCH", "YELLOW", 82⟩⟩
  else if name = "emergency" then
    some ⟨"emergency", ⟨2, "EMERGENCY WARNING", "RED", 94⟩⟩
  else none

/-- Modelled from the spec: serving a demo scenario — the handler builds its
synthetic payload from the scenario name alone and returns the live
observation and prediction stores untouched; the endpoint is not in the
source tree. -/
def serveDemoScenario (oS : ObsStore) (pS : PredStore) (name : String) :
    Option DemoPayload × ObsStore × PredStore :=
  (demoPayload name, oS, pS)

/-! The dashboard's status configuration.  From
`src/frontend/lib/constants.ts` (`STATUS_CONFIG`) and
`src/frontend/components/dashboard/KarachiMap.tsx`. -/

/-- One entry of `STATUS_CONFIG`. -/
structure StatusVisual where
  label : String
  shortLabel : String
  gradient : String
  bgColor : String
  textColor : String
  borderColor : String
  glowColor : String
  hex : String
  icon : String
deriving DecidableEq, Repr

/-- `STATUS_CONFIG["NORMAL"]`. -/
def normalStatusVisual : StatusVisual :=
  { label := "NORMAL", shortLabel := "Normal",
    gradient := "from-emerald-700 to-emerald-500", bgColor := "bg-emerald-500",
    textColor := "text-emerald-400", borderColor := "border-emerald-500",
    glowColor := "shadow-emerald-500/20", hex := "#10b981", icon := "ShieldCheck" }

/-- `STATUS_CONFIG["FLOOD WATCH"]`. -/
def watchStatusVisual : StatusVisual :=
  { label := "FLOOD WATCH", shortLabel := "Watch",
    gradient := "from-amber-700 to-amber-500", bgColor := "bg-amber-500",
    textColor := "text-amber-400", borderColor := "border-amber-500",
    glowColor := "shadow-amber-500/20", hex := "#f59e0b", icon := "AlertTriangle" }

/-- `STATUS_CONFIG["EMERGENCY WARNING"]`. -/
def emergencyStatusVisual : StatusVisual :=
  { label := "EMERGENCY WARNING", shortLabel := "Emergency",
    gradient := "from-red-700 to-red-500", bgColor := "bg-red-500",
    textColor := "text-red-400", borderColor := "border-red-500",
    glowColor := "shadow-red-500/50", hex := "#ef4444", icon := "AlertOctagon" }

/-- Keyed access to `STATUS_CONFIG`: `some` for its three keys, `none` (the
TypeScript `undefined`) for every other string. -/
def statusConfigAt (k : String) : Option StatusVisual :=
  if k = "NORMAL" then some normalStatusVisual
  else if k = "FLOOD WATCH" then some watchStatusVisual
  else if k = "EMERGENCY WARNING" then some emergencyStatusVisual
  else none

/-- From `KarachiMap.tsx` line 14: `(status as StatusKey) || "NORMAL"` — the
JavaScript or-fallback replaces a null or empty status with `"NORMAL"`. -/
def karachiMapStatusKey (status : Option String) : String :=
  match status with
  | none => "NORMAL"
  | some s => if s = "" then "NORMAL" else s

/-- From `KarachiMap.tsx` line 15:
`STATUS_CONFIG[statusKey] || STATUS_CONFIG["NORMAL"]`. -/
def karachiMapConfig (status : Option String) : StatusVisual :=
  (statusConfigAt (karachiMapStatusKey status)).getD normalStatusVisual

/-- From `KarachiMap.tsx` line 16: `statusKey === "EMERGENCY WARNING"`. -/
def karachiMapIsEmergency (status : Option String) : Bool :=
  karachiMapStatusKey status = "EMERGENCY WARNING"

/-! The gauge cards.  From `GaugeCard` in
`src/frontend/components/dashboard/WeatherCharts.tsx` (lines 253–262). -/

/-- From `GaugeCard`: the fill percentage
`Math.min(100, Math.max(0, ((value - min) / (max - min)) * 100))`. -/
def gaugePercentage (value mn mx : ℚ) : ℚ :=
  min 100 (max 0 ((value - mn) / (mx - mn) * 100))

/-! Theorems. -/

theorem lookupK_upsertK_self {α : Type} (S : Table α) (k : ℤ) (v : α) :
    lookupK (upsertK S k v) k = some v := by
  induction S with
  | nil => simp [upsertK, lookupK]
  | cons p rest ih =>
    by_cases h : p.1 = k
    · simp [upsertK, lookupK, h]
    · simp [upsertK, lookupK, h, ih]

theorem lookupK_upsertK_ne {α : Type} (S : Table α) (k h : ℤ) (v : α) (hne : h ≠ k) :
    lookupK (upsertK S k v) h = lookupK S h := by
  have hkh : ¬ k = h := fun e => hne e.symm
  induction S with
  | nil => simp [upsertK, lookupK, hkh]
  | cons p rest ih =>
    by_cases hp : p.1 = k
    · subst hp
      simp [upsertK, lookupK, hkh]
    · by_cases hq : p.1 = h
      · simp [upsertK, lookupK, hp, hq, hne]
      · simp [upsertK, lookupK, hp, hq, ih]

theorem countK_upsertK_ne {α : Type} (S : Table α) (k t : ℤ) (v : α) (hne : t ≠ k) :
    countK (upsertK S k v) t = countK S t := by
  have hkt : ¬ k = t := fun e => hne e.symm
  induction S with
  | nil => simp [upsertK, countK, hkt]
  | cons p rest ih =>
    by_cases hp : p.1 = k
    · subst hp
      simp [upsertK, countK, hkt]
    · simp [upsertK, countK, hp, ih]

theorem countK_upsertK_self {α : Type} (S : Table α) (k : ℤ) (v : α)
    (hS : countK S k ≤ 1) : countK (upsertK S k v) k = 1 := by
  induction S with
  | nil => simp [upsertK, countK]
  | cons p rest ih =>
    by_cases hp : p.1 = k
    · have hrest : countK rest k = 0 := by
        have := hS
        simp [countK, hp] at this
        omega
      simp [upsertK, countK, hp, hrest]
    · have hS' : countK rest k ≤ 1 := by
        have := hS
        simpa [countK, hp] using this
      simp [upsertK, countK, hp, ih hS']

theorem uniqueKeyed_upsertK {α : Type} (S : Table α) (k : ℤ) (v : α)
    (hS : uniqueKeyed S) : uniqueKeyed (upsertK S k v) := by
  intro t
  by_cases ht : t = k
  · subst ht
    exact le_of_eq (countK_upsertK_self S t v (hS t))
  · rw [countK_upsertK_ne S k t v ht]
    exact hS t

theorem length_upsertK_of_present {α : Type} (S : Table α) (k : ℤ) (v : α)
    (hk : countK S k ≠ 0) : (upsertK S k v).length = S.length := by
  induction S with
  | nil => simp [countK] at hk
  | cons p rest ih =>
    by_cases hp : p.1 = k
    · simp [upsertK, hp]
    · have hrest : countK rest k ≠ 0 := by
        have := hk
        simpa [countK, hp] using this
      simp [upsertK, hp, ih hrest]

theorem windowHours_le (t : ℤ) (w : ℕ) (h : ℤ) (hh : h ∈ windowHours t w) :
    h ≤ t := by
  unfold windowHours at hh
  simp only [List.mem_map, List.mem_range] at hh
  rcases hh with ⟨i, _, rfl⟩
  omega

theorem windowVals_congr (f : Obs → Option ℚ) (S S' : ObsStore) (t : ℤ) (w : ℕ)
    (hag : ∀ h : ℤ, h ≤ t → lookupK S h = lookupK S' h) :
    windowVals f S t w = windowVals f S' t w := by
  unfold windowVals
  apply List.filterMap_congr
  intro h hh
  rw [hag h (windowHours_le t w h hh)]

theorem lookupK_upsertK_future {α : Type} (S : Table α) (t t' h : ℤ) (o : α)
    (ht : t < t') (hh : h ≤ t) : lookupK (upsertK S t' o) h = lookupK S h :=
  lookupK_upsertK_ne S t' h o (by omega)

/-- C1: inserting an observation at an hour strictly greater than `t` changes
none of the derived rolling features computed at `t` — 3-hour pressure trend,
6h/24h precipitation sums, 12h pressure mean and 6h humidity mean are equal
over `S` and over `S` with the future row upserted (no future leakage). -/
theorem noFutureLeakage (S : ObsStore) (t t' : ℤ) (o : Obs) (ht : t < t') :
    pressure_trend_3h (upsertK S t' o) t = pressure_trend_3h S t ∧
    precip_rolling_6h (upsertK S t' o) t = precip_rolling_6h S t ∧
    precip_rolling_24h (upsertK S t' o) t = precip_rolling_24h S t ∧
    pressure_rolling_12h (upsertK S t' o) t = pressure_rolling_12h S t ∧
    humidity_rolling_6h (upsertK S t' o) t = humidity_rolling_6h S t := by
  have hag : ∀ h : ℤ, h ≤ t → lookupK (upsertK S t' o) h = lookupK S h :=
    fun h hh => lookupK_upsertK_future S t t' h o ht hh
  have hnow : pressureAt (upsertK S t' o) t = pressureAt S t := by
    unfold pressureAt
    rw [hag t le_rfl]
  have hpast : pressureAt (upsertK S t' o) (t - 3) = pressureAt S (t - 3) := by
    unfold pressureAt
    rw [hag (t - 3) (by omega)]
  refine ⟨?_, ?_, ?_, ?_, ?_⟩
  · unfold pressure_trend_3h
    rw [hnow, hpast]
  · unfold precip_rolling_6h rollingSum
    rw [windowVals_congr _ _ _ _ _ hag]
  · unfold precip_rolling_24h rollingSum
    rw [windowVals_congr _ _ _ _ _ hag]
  · unfold pressure_rolling_12h rollingMean
    rw [windowVals_congr _ _ _ _ _ hag]
  · unfold humidity_rolling_6h rollingMean
    rw [windowVals_congr _ _ _ _ _ hag]

/-- Witness for C1 at the spec's example store: the features at hour 3 are
unchanged by upserting a row at hour 5. -/
theorem noFutureLeakage_witness :
    pressure_trend_3h (upsertK exampleStore 5 futureObs) 3 = pressure_trend_3h exampleStore 3 ∧
    precip_rolling_6h (upsertK exampleStore 5 futureObs) 3 = precip_rolling_6h exampleStore 3 ∧
    precip_rolling_24h (upsertK exampleStore 5 futureObs) 3 = precip_rolling_24h exampleStore 3 ∧
    pressure_rolling_12h (upsertK exampleStore 5 futureObs) 3 = pressure_rolling_12h exampleStore 3 ∧
    humidity_rolling_6h (upsertK exampleStore 5 futureObs) 3 = humidity_rolling_6h exampleStore 3 :=
  noFutureLeakage exampleStore 3 5 futureObs (by decide)

/-- C3: the pressure trend at `t` equals pressure(t) − pressure(t − 3h) when
both samples exist and is null — not zero — when either endpoint of the window
is missing; each rolling feature whose look-back window holds no usable value
is likewise null, never zero-filled. -/
theorem trendAndRollingNullSemantics (S : ObsStore) (t : ℤ) :
    (∀ p q : ℚ, pressureAt S t = some p → pressureAt S (t - 3) = some q →
      pressure_trend_3h S t = some (p - q)) ∧
    (pressureAt S t = none ∨ pressureAt S (t - 3) = none →
      pressure_trend_3h S t = none) ∧
    (windowVals Obs.precipitation S t 6 = [] → precip_rolling_6h S t = none) ∧
    (windowVals Obs.precipitation S t 24 = [] → precip_rolling_24h S t = none) ∧
    (windowVals Obs.surface_pressure S t 12 = [] → pressure_rolling_12h S t = none) ∧
    (windowVals Obs.humidity S t 6 = [] → humidity_rolling_6h S t = none) := by
  refine ⟨?_, ?_, ?_, ?_, ?_, ?_⟩
  · intro p q hp hq
    unfold pressure_trend_3h
    rw [hp, hq]
  · intro h
    rcases h with h | h
    · cases hq : pressureAt S (t - 3) <;> simp [pressure_trend_3h, h, hq]
    · cases hp : pressureAt S t <;> simp [pressure_trend_3h, h, hp]
  · intro h
    simp [precip_rolling_6h, rollingSum, h]
  · intro h
    simp [precip_rolling_24h, rollingSum, h]
  · intro h
    simp [pressure_rolling_12h, rollingMean, h]
  · intro h
    simp [humidity_rolling_6h, rollingMean, h]

/-- Witness for C3: at the spec's example store the trend at hour 3 is
1002 − 1008 = −6; at hour 1 the t−3h endpoint is missing and the trend is
null; on an empty store every rolling feature is null. -/
theorem trendAndRollingNullSemantics_witness :
    pressure_trend_3h exampleStore 3 = some (-6) ∧
    pressure_trend_3h exampleStore 1 = none ∧
    precip_rolling_6h ([] : ObsStore) 0 = none ∧
    precip_rolling_24h ([] : ObsStore) 0 = none ∧
    pressure_rolling_12h ([] : ObsStore) 0 = none ∧
    humidity_rolling_6h ([] : ObsStore) 0 = none := by
  refine ⟨?_, ?_, ?_, ?_, ?_, ?_⟩
  · have h := (trendAndRollingNullSemantics exampleStore 3).1 1002 1008
      (by decide) (by decide)
    rw [h]
    norm_num
  · exact (trendAndRollingNullSemantics exampleStore 1).2.1 (Or.inr (by decide))
  · exact (trendAndRollingNullSemantics ([] : ObsStore) 0).2.2.1 (by decide)
  · exact (trendAndRollingNullSemantics ([] : ObsStore) 0).2.2.2.1 (by decide)
  · exact (trendAndRollingNullSemantics ([] : ObsStore) 0).2.2.2.2.1 (by decide)
  · exact (trendAndRollingNullSemantics ([] : ObsStore) 0).2.2.2.2.2 (by decide)

/-- C7: under the unique index `idx_weather_obs_observed_at`, ingesting the
same observation twice by upsert leaves exactly one row for that timestamp:
the row count at the key is 1, the stored row is the ingested one, the unique
invariant is preserved, and the second ingestion adds no row at all. -/
theorem obsIngestIdempotent (S : ObsStore) (t : ℤ) (o : Obs)
    (hS : uniqueKeyed S) :
    countK (upsertK (upsertK S t o) t o) t = 1 ∧
    lookupK (upsertK (upsertK S t o) t o) t = some o ∧
    uniqueKeyed (upsertK (upsertK S t o) t o) ∧
    (upsertK (upsertK S t o) t o).length = (upsertK S t o).length := by
  have h1 : uniqueKeyed (upsertK S t o) := uniqueKeyed_upsertK S t o hS
  have hc : countK (upsertK S t o) t = 1 := countK_upsertK_self S t o (hS t)
  refine ⟨countK_upsertK_self _ t o (h1 t), lookupK_upsertK_self _ t o,
    uniqueKeyed_upsertK _ t o h1, length_upsertK_of_present _ t o ?_⟩
  rw [hc]
  exact one_ne_zero

/-- Witness for C7 at the spec's example store, ingesting a row at hour 7
twice. -/
theorem obsIngestIdempotent_witness :
    countK (upsertK (upsertK exampleStore 7 futureObs) 7 futureObs) 7 = 1 ∧
    lookupK (upsertK (upsertK exampleStore 7 futureObs) 7 futureObs) 7 = some futureObs ∧
    uniqueKeyed (upsertK (upsertK exampleStore 7 futureObs) 7 futureObs) ∧
    (upsertK (upsertK exampleStore 7 futureObs) 7 futureObs).length
      = (upsertK exampleStore 7 futureObs).length :=
  obsIngestIdempotent exampleStore 7 futureObs
    (by intro u; simp [exampleStore, countK]; split_ifs <;> omega)

/-- C6: under the unique index `idx_predictions_data_hour`, the predictions
store holds at most one row per data-hour: upserting a prediction for hour `h`
yields row count 1 and preserves the unique invariant, and re-evaluating the
same hour overwrites the stored row with the new one without adding a row. -/
theorem predictionHourUnique (P : PredStore) (h : ℤ) (p p' : FloodPrediction)
    (hP : uniqueKeyed P) :
    countK (upsertK P h p) h = 1 ∧
    uniqueKeyed (upsertK P h p) ∧
    lookupK (upsertK (upsertK P h p) h p') h = some p' ∧
    countK (upsertK (upsertK P h p) h p') h = 1 ∧
    (upsertK (upsertK P h p) h p').length = (upsertK P h p).length := by
  have h1 : uniqueKeyed (upsertK P h p) := uniqueKeyed_upsertK P h p hP
  have hc : countK (upsertK P h p) h = 1 := countK_upsertK_self P h p (hP h)
  refine ⟨hc, h1, lookupK_upsertK_self _ h p', countK_upsertK_self _ h p' (h1 h),
    length_upsertK_of_present _ h p' ?_⟩
  rw [hc]
  exact one_ne_zero

/-- Witness for C6: evaluating hour 3 twice on a concrete store keeps one row
for hour 3 and serves the second evaluation. -/
theorem predictionHourUnique_witness :
    countK (upsertK [((2 : ℤ), normalPredRow)] 3 watchPredRow) 3 = 1 ∧
    uniqueKeyed (upsertK [((2 : ℤ), normalPredRow)] 3 watchPredRow) ∧
    lookupK (upsertK (upsertK [((2 : ℤ), normalPredRow)] 3 watchPredRow) 3 normalPredRow) 3
      = some normalPredRow ∧
    countK (upsertK (upsertK [((2 : ℤ), normalPredRow)] 3 watchPredRow) 3 normalPredRow) 3 = 1 ∧
    (upsertK (upsertK [((2 : ℤ), normalPredRow)] 3 watchPredRow) 3 normalPredRow).length
      = (upsertK [((2 : ℤ), normalPredRow)] 3 watchPredRow).length :=
  predictionHourUnique [((2 : ℤ), normalPredRow)] 3 watchPredRow normalPredRow
    (by intro u; simp [countK]; split_ifs <;> omega)

/-- C2: a failed training run (too few samples or a class entirely absent)
leaves the currently-served artifact unchanged and appends exactly one failed
log row; a successful run appends exactly one log row and publishes exactly
the artifact of this run as the served artifact. -/
theorem trainerLifecycle (minSamples : ℕ) (now : ℤ) (trig : String)
    (slice : List TrainSample) (st : TrainerState) :
    (trainFails minSamples slice = true →
      (runTraining minSamples now trig slice st).served = st.served ∧
      (runTraining minSamples now trig slice st).log
        = st.log ++ [⟨now, slice.length, trig, false⟩]) ∧
    (trainFails minSamples slice = false →
      (runTraining minSamples now trig slice st).served
        = some (mkArtifact now slice) ∧
      (runTraining minSamples now trig slice st).log
        = st.log ++ [⟨now, slice.length, trig, true⟩] ∧
      (runTraining minSamples now trig slice st).log.length
        = st.log.length + 1) := by
  constructor
  · intro h
    simp [runTraining, h]
  · intro h
    simp [runTraining, h]

/-- Witness for C2: the spec's test — retraining on a slice containing only
class 0 fails and leaves the prior artifact served; retraining on a slice
covering all classes succeeds and publishes this run's artifact with one new
log row. -/
theorem trainerLifecycle_witness :
    ((runTraining 3 200 "manual" onlyNormalSlice exampleTrainerState).served
      = exampleTrainerState.served ∧
     (runTraining 3 200 "manual" onlyNormalSlice exampleTrainerState).log
      = exampleTrainerState.log ++ [⟨200, onlyNormalSlice.length, "manual", false⟩]) ∧
    ((runTraining 3 200 "manual" fullSlice exampleTrainerState).served
      = some (mkArtifact 200 fullSlice) ∧
     (runTraining 3 200 "manual" fullSlice exampleTrainerState).log
      = exampleTrainerState.log ++ [⟨200, fullSlice.length, "manual", true⟩] ∧
     (runTraining 3 200 "manual" fullSlice exampleTrainerState).log.length
      = exampleTrainerState.log.length + 1) :=
  ⟨(trainerLifecycle 3 200 "manual" onlyNormalSlice exampleTrainerState).1 (by decide),
   (trainerLifecycle 3 200 "manual" fullSlice exampleTrainerState).2 (by decide)⟩

/-- C5: every prediction's class is 0, 1 or 2, and its status/color pair is
exactly the total deterministic mapping 0→NORMAL/GREEN, 1→FLOOD WATCH/YELLOW,
2→EMERGENCY WARNING/RED — no other mapping occurs. -/
theorem predictedClassStatusColor (p0 p1 p2 : ℚ) :
    ((mkPrediction p0 p1 p2).prediction = 0 ∨
     (mkPrediction p0 p1 p2).prediction = 1 ∨
     (mkPrediction p0 p1 p2).prediction = 2) ∧
    ((mkPrediction p0 p1 p2).prediction = 0 →
      (mkPrediction p0 p1 p2).status = "NORMAL" ∧
      (mkPrediction p0 p1 p2).color = "GREEN") ∧
    ((mkPrediction p0 p1 p2).prediction = 1 →
      (mkPrediction p0 p1 p2).status = "FLOOD WATCH" ∧
      (mkPrediction p0 p1 p2).color = "YELLOW") ∧
    ((mkPrediction p0 p1 p2).prediction = 2 →
      (mkPrediction p0 p1 p2).status = "EMERGENCY WARNING" ∧
      (mkPrediction p0 p1 p2).color = "RED") ∧
    statusOfClass 0 = ("NORMAL", "GREEN") ∧
    statusOfClass 1 = ("FLOOD WATCH", "YELLOW") ∧
    statusOfClass 2 = ("EMERGENCY WARNING", "RED") := by
  unfold mkPrediction
  by_cases h1 : p1 ≤ p0 ∧ p2 ≤ p0
  · simp [argmax3, h1, statusOfClass]
  · by_cases h2 : p2 ≤ p1
    · simp [argmax3, h1, h2, statusOfClass]
    · simp [argmax3, h1, h2, statusOfClass]

/-- Witness for C5: with class probabilities (0.1, 0.2, 0.7) the predicted
class is 2 and the pair is EMERGENCY WARNING / RED. -/
theorem predictedClassStatusColor_witness :
    (mkPrediction (1/10) (2/10) (7/10)).prediction = 2 ∧
    (mkPrediction (1/10) (2/10) (7/10)).status = "EMERGENCY WARNING" ∧
    (mkPrediction (1/10) (2/10) (7/10)).color = "RED" := by
  have h := predictedClassStatusColor (1/10) (2/10) (7/10)
  have hp : (mkPrediction (1/10) (2/10) (7/10)).prediction = 2 := by
    norm_num [mkPrediction, argmax3]
  exact ⟨hp, (h.2.2.2.1 hp).1, (h.2.2.2.1 hp).2⟩

/-- Counterexample to C4 as stated: for a prediction whose confidence field is
0.82 — a value in [0,1] as the claim requires — the percentage the dashboard
displays is `heroRingPercentage`, the raw field (0.82, rendered "1%"), not the
claimed display rendering 100 × 0.82 = 82. -/
theorem confidencePercentage_counterexample :
    heroRingPercentage
        { prediction := 1, status := "FLOOD WATCH", color := "YELLOW",
          confidence := 82/100 }
      ≠ 100 * (82/100 : ℚ) := by
  norm_num [heroRingPercentage]

/-- C4 (amended): the confidence field served with a prediction is the
predicted class's clipped probability on the percentage scale — a value in
[0, 100] — and the dashboard consumes it directly: `HeroAlert` passes the
field itself as `ConfidenceRing`'s percentage, whose filled fraction of the
ring is confidence / 100, a value in [0, 1]. -/
theorem confidencePercentageScale (p0 p1 p2 circ : ℚ) (hc : 0 < circ) :
    0 ≤ (mkPrediction p0 p1 p2).confidence ∧
    (mkPrediction p0 p1 p2).confidence ≤ 100 ∧
    heroRingPercentage (mkPrediction p0 p1 p2) = (mkPrediction p0 p1 p2).confidence ∧
    (circ - ringOffset circ (heroRingPercentage (mkPrediction p0 p1 p2))) / circ
      = (mkPrediction p0 p1 p2).confidence / 100 ∧
    0 ≤ (mkPrediction p0 p1 p2).confidence / 100 ∧
    (mkPrediction p0 p1 p2).confidence / 100 ≤ 1 := by
  set q := classProb p0 p1 p2 (argmax3 p0 p1 p2) with hq
  have h0 : 0 ≤ clip01 q := le_min zero_le_one (le_max_left 0 q)
  have h1 : clip01 q ≤ 1 := min_le_left 1 (max 0 q)
  have hconf : (mkPrediction p0 p1 p2).confidence = 100 * clip01 q := rfl
  have hne : circ ≠ 0 := ne_of_gt hc
  refine ⟨?_, ?_, rfl, ?_, ?_, ?_⟩
  · rw [hconf]
    linarith
  · rw [hconf]
    linarith
  · unfold ringOffset heroRingPercentage
    field_simp
    ring
  · rw [hconf]
    linarith
  · rw [hconf]
    linarith

/-- Witness for C4 (amended), at class probabilities (0.1, 0.2, 0.7) and a
unit-circumference ring: confidence is 70 on the percentage scale and the ring
fill fraction is 0.7. -/
theorem confidencePercentageScale_witness :
    (mkPrediction (1/10) (2/10) (7/10)).confidence = 70 ∧
    heroRingPercentage (mkPrediction (1/10) (2/10) (7/10)) = 70 ∧
    (1 - ringOffset 1 (heroRingPercentage (mkPrediction (1/10) (2/10) (7/10)))) / 1
      = (7/10 : ℚ) := by
  have h := confidencePercentageScale (1/10) (2/10) (7/10) 1 (by norm_num)
  have ha : argmax3 (1/10) (2/10) (7/10) = 2 := by
    unfold argmax3
    norm_num
  have hv : (mkPrediction (1/10) (2/10) (7/10)).confidence = 70 := by
    have h20 : (2 : Fin 3) ≠ 0 := by decide
    have h21 : (2 : Fin 3) ≠ 1 := by decide
    simp only [mkPrediction, ha]
    norm_num [classProb, clip01, min_def, max_def, h20, h21]
  refine ⟨hv, ?_, ?_⟩
  · rw [h.2.2.1, hv]
  · rw [h.2.2.2.1, hv]
    norm_num

/-- C8: requesting the `emergency` demo scenario returns a synthetic
prediction of class 2 whatever the live stores hold, and serving any demo
scenario neither reads from nor modifies the live observation and prediction
state: the stores come back unchanged and the payload is the same for every
pair of live stores.  The dashboard fetches it from the demo URL, not from
`/api/predict`. -/
theorem demoEmergencyIsolated (oS oS' : ObsStore) (pS pS' : PredStore) :
    ((serveDemoScenario oS pS "emergency").1.map
        (fun r => r.prediction.prediction) = some 2) ∧
    (∀ name : String,
      (serveDemoScenario oS pS name).2.1 = oS ∧
      (serveDemoScenario oS pS name).2.2 = pS ∧
      (serveDemoScenario oS pS name).1 = (serveDemoScenario oS' pS' name).1) ∧
    floodDataUrl (some "emergency") = "/api/demo/scenario/emergency" ∧
    "emergency" ∈ SCENARIOS := by
  refine ⟨?_, fun name => ⟨rfl, rfl, rfl⟩, ?_, ?_⟩
  · simp only [serveDemoScenario]
    decide
  · decide
  · decide

/-- Witness for C8 at concrete live stores: serving `emergency` over the
example observation store and a non-empty prediction store yields class 2 and
returns both stores unchanged. -/
theorem demoEmergencyIsolated_witness :
    ((serveDemoScenario exampleStore [((2 : ℤ), watchPredRow)] "emergency").1.map
        (fun r => r.prediction.prediction) = some 2) ∧
    (serveDemoScenario exampleStore [((2 : ℤ), watchPredRow)] "emergency").2.1
      = exampleStore ∧
    (serveDemoScenario exampleStore [((2 : ℤ), watchPredRow)] "emergency").2.2
      = [((2 : ℤ), watchPredRow)] ∧
    (serveDemoScenario exampleStore [((2 : ℤ), watchPredRow)] "emergency").1
      = (serveDemoScenario [] [] "emergency").1 := by
  have h := demoEmergencyIsolated exampleStore ([] : ObsStore)
    [((2 : ℤ), watchPredRow)] ([] : PredStore)
  exact ⟨h.1, (h.2.1 "emergency").1, (h.2.1 "emergency").2.1, (h.2.1 "emergency").2.2⟩

/-- C9: a null status, or any status string other than the three valid ones,
renders the KarachiMap with the NORMAL (green) configuration and without the
emergency pulse — an unrecognized status silently falls back to NORMAL. -/
theorem karachiMapUnknownStatusFallsBack (status : Option String)
    (h : status = none ∨ ∃ s : String, status = some s ∧
      s ≠ "NORMAL" ∧ s ≠ "FLOOD WATCH" ∧ s ≠ "EMERGENCY WARNING") :
    karachiMapConfig status = normalStatusVisual ∧
    karachiMapIsEmergency status = false := by
  rcases h with h | ⟨s, rfl, h1, h2, h3⟩
  · subst h
    constructor
    · simp [karachiMapConfig, karachiMapStatusKey, statusConfigAt]
    · simp [karachiMapIsEmergency, karachiMapStatusKey]
  · by_cases he : s = ""
    · subst he
      constructor
      · simp [karachiMapConfig, karachiMapStatusKey, statusConfigAt]
      · simp [karachiMapIsEmergency, karachiMapStatusKey]
    · constructor
      · simp [karachiMapConfig, karachiMapStatusKey, statusConfigAt, he, h1, h2, h3]
      · simp [karachiMapIsEmergency, karachiMapStatusKey, he, h3]

/-- Witness for C9: the unrecognized status "SEVERE" and the null status both
render the NORMAL configuration without the emergency pulse. -/
theorem karachiMapUnknownStatusFallsBack_witness :
    (karachiMapConfig (some "SEVERE") = normalStatusVisual ∧
      karachiMapIsEmergency (some "SEVERE") = false) ∧
    (karachiMapConfig none = normalStatusVisual ∧
      karachiMapIsEmergency none = false) :=
  ⟨karachiMapUnknownStatusFallsBack (some "SEVERE")
      (Or.inr ⟨"SEVERE", rfl, by decide, by decide, by decide⟩),
   karachiMapUnknownStatusFallsBack none (Or.inl rfl)⟩

/-- C10: for bounds `mn < mx` the gauge fill percentage is the linear position
of the value in the range, scaled to 100 and clamped into [0, 100]: it never
lies outside [0, 100] even for out-of-range values, and for in-range values
the clamp is the identity. -/
theorem gaugePercentageClamped (value mn mx : ℚ) (h : mn < mx) :
    0 ≤ gaugePercentage value mn mx ∧
    gaugePercentage value mn mx ≤ 100 ∧
    (mn ≤ value → value ≤ mx →
      gaugePercentage value mn mx = (value - mn) / (mx - mn) * 100) := by
  refine ⟨le_min (by norm_num) (le_max_left 0 _), min_le_left _ _, ?_⟩
  intro hlo hhi
  have hd : (0 : ℚ) < mx - mn := by linarith
  have hraw0 : 0 ≤ (value - mn) / (mx - mn) * 100 := by
    apply mul_nonneg _ (by norm_num)
    exact div_nonneg (by linarith) (le_of_lt hd)
  have hraw1 : (value - mn) / (mx - mn) ≤ 1 := (div_le_one hd).2 (by linarith)
  have hraw100 : (value - mn) / (mx - mn) * 100 ≤ 100 := by nlinarith
  unfold gaugePercentage
  rw [max_eq_right hraw0, min_eq_right hraw100]

/-- Witness for C10 on the pressure gauge range [980, 1040]: an out-of-range
value clamps to 100 and an in-range value sits at its linear position. -/
theorem gaugePercentageClamped_witness :
    (0 ≤ gaugePercentage 1100 980 1040 ∧ gaugePercentage 1100 980 1040 ≤ 100) ∧
    gaugePercentage 1010 980 1040 = (1010 - 980) / (1040 - 980) * 100 := by
  have hout := gaugePercentageClamped 1100 980 1040 (by norm_num)
  have hin := gaugePercentageClamped 1010 980 1040 (by norm_num)
  exact ⟨⟨hout.1, hout.2.1⟩, hin.2.2 (by norm_num) (by norm_num)⟩

end FloodEWS
